import Mathlib

/-!
Shallow embedding of the toy robot simulator's core state machine,
`src/managers/location_manager.py` (class `LocationManager`).

Conventions of the embedding:
* Python `None` becomes `Option.none`; fields that may be `None`
  (`location_x`, `location_y`, `location_facing`) are `Option`s.
* Python `int` becomes `Int` (Python integers are unbounded).
* Direction and rotation tokens stay `String`s, as in the source.
* A Python function that can raise becomes `Except String _`; the error
  string names the Python exception class or message.  `handle_rotation`
  raises on a bad rotation token and (via `list.index`) on an unknown
  current direction; `handle_move` raises `TypeError` when it adds an int
  to `None`; `move_robot` propagates these.
* Methods that mutate `self` return the new state explicitly, paired with
  the Python return value.
-/

deriving instance DecidableEq for Except

/-- Class attribute `LocationManager.available_directions`:
`['NORTH', 'EAST', 'SOUTH', 'WEST']`. -/
def available_directions : List String := ["NORTH", "EAST", "SOUTH", "WEST"]

/-- The mutable state of a `LocationManager` instance: the simulation area
`(width, height)` fixed by `__init__`, and the three location fields that
start as `None`. -/
structure LocationManager where
  simulation_area : Int × Int
  location_x : Option Int
  location_y : Option Int
  location_facing : Option String
deriving DecidableEq

namespace LocationManager

/-- Constructor `LocationManager.__init__`: stores the simulation area and
sets `location_x`, `location_y`, `location_facing` to `None`. -/
def init (simulation_area : Int × Int) : LocationManager :=
  { simulation_area := simulation_area
    location_x := none
    location_y := none
    location_facing := none }

/-- Classmethod `LocationManager.check_location`: returns `False` when
`location[0] < 0 or location[0] > simulation_area[0] or location[1] < 0 or
location[1] > simulation_area[1]`, else `True`. -/
def check_location (simulation_area : Int × Int) (location : Int × Int) : Bool :=
  if location.1 < 0 || location.1 > simulation_area.1 ||
      location.2 < 0 || location.2 > simulation_area.2 then
    false
  else
    true

/-- The index arithmetic inside `handle_rotation`:
`available_directions[(available_directions.index(current_direction) + factor) % len(available_directions)]`.
Python `list.index` raises `ValueError` when the element is absent, which
includes a `None` current direction; Python `%` with a positive modulus
agrees with `Int.emod`.  The subsequent list indexing is modelled totally
via `List.get?` (its failure, `IndexError`, is unreachable for a nonempty
list because `emod` lands in `[0, length)`). -/
def rotate_index (dirs : List String) (factor : Int) (current : Option String) :
    Except String String :=
  match current with
  | none => Except.error "ValueError"
  | some c =>
    match dirs.findIdx? (· == c) with
    | none => Except.error "ValueError"
    | some i =>
      match dirs.get? (((i : Int) + factor).emod (dirs.length : Int)).toNat with
      | some d => Except.ok d
      | none => Except.error "IndexError"

/-- Classmethod `LocationManager.handle_rotation`: `match rotation` sets the
factor to `1` for `'RIGHT'`, `-1` for `'LEFT'`, and raises
`Exception('Invalid rotation direction. ...')` for anything else, before any
index lookup happens. -/
def handle_rotation (dirs : List String) (rotation : Option String)
    (current_direction : Option String) : Except String String :=
  if rotation = some "RIGHT" then rotate_index dirs 1 current_direction
  else if rotation = some "LEFT" then rotate_index dirs (-1) current_direction
  else Except.error "Invalid rotation direction. Must be LEFT or RIGHT."

/-- Classmethod `LocationManager.handle_move`: `match direction` adds or
subtracts `distance` on one coordinate for the four direction strings and
returns `current_location` unchanged for any other value (including `None`).
Arithmetic on a `None` coordinate is Python `TypeError`. -/
def handle_move (current_location : Option Int × Option Int)
    (direction : Option String) (distance : Int) :
    Except String (Option Int × Option Int) :=
  if direction = some "NORTH" then
    match current_location.2 with
    | some y => Except.ok (current_location.1, some (y + distance))
    | none => Except.error "TypeError"
  else if direction = some "EAST" then
    match current_location.1 with
    | some x => Except.ok (some (x + distance), current_location.2)
    | none => Except.error "TypeError"
  else if direction = some "SOUTH" then
    match current_location.2 with
    | some y => Except.ok (current_location.1, some (y - distance))
    | none => Except.error "TypeError"
  else if direction = some "WEST" then
    match current_location.1 with
    | some x => Except.ok (some (x - distance), current_location.2)
    | none => Except.error "TypeError"
  else
    Except.ok current_location

/-- Method `LocationManager.set_start_position`: with a non-`None`
`location` it writes all three fields and returns `True`; with `None` it
writes nothing and returns `False`. -/
def set_start_position (self : LocationManager)
    (location : Option (Int × Int × String)) : Bool × LocationManager :=
  match location with
  | some l =>
    (true, { self with
               location_x := some l.1
               location_y := some l.2.1
               location_facing := some l.2.2 })
  | none => (false, self)

/-- Method `LocationManager.update_rotation`: calls `handle_rotation` inside
`try`; on success it stores the new facing and returns `True`, on any
exception it returns `False` with the facing untouched (the assignment only
happens after `handle_rotation` returns). -/
def update_rotation (self : LocationManager) (rotation : Option String) :
    Bool × LocationManager :=
  match handle_rotation available_directions rotation self.location_facing with
  | Except.ok d => (true, { self with location_facing := some d })
  | Except.error _ => (false, self)

/-- Method `LocationManager.move_robot`: computes the candidate via
`handle_move`; if it equals the current location the method returns `False`
without touching state; otherwise, if `check_location` accepts the
candidate, the coordinates are overwritten and it returns `True`, else it
returns `False` with state untouched.  A `None` coordinate reaching
`check_location` (comparison of `None` with `int`) is Python `TypeError`. -/
def move_robot (self : LocationManager) (direction : Option String)
    (distance : Int) : Except String (Bool × LocationManager) :=
  match handle_move (self.location_x, self.location_y) direction distance with
  | Except.error e => Except.error e
  | Except.ok (new_x, new_y) =>
    if (new_x, new_y) = (self.location_x, self.location_y) then
      Except.ok (false, self)
    else
      match new_x, new_y with
      | some nx, some ny =>
        if check_location self.simulation_area (nx, ny) then
          Except.ok (true, { self with
                               location_x := some nx
                               location_y := some ny })
        else
          Except.ok (false, self)
      | _, _ => Except.error "TypeError"

/-- Method `LocationManager.is_placed`:
`self.location_x is not None and self.location_y is not None`. -/
def is_placed (self : LocationManager) : Bool :=
  self.location_x.isSome && self.location_y.isSome

end LocationManager

/-- One external command against the state machine, as dispatched by the
orchestration layer onto `LocationManager`. -/
inductive Op
  | place (location : Option (Int × Int × String))
  | move (direction : Option String) (distance : Int)
  | rotate (rotation : Option String)
deriving DecidableEq

/-- Applying one command to the state.  When a Python exception escapes
`move_robot`, the instance fields are still unwritten (the assignments sit
after the call that raises), so the error case keeps the state. -/
def applyOp (lm : LocationManager) : Op → LocationManager
  | Op.place loc => (lm.set_start_position loc).2
  | Op.move dir dist =>
    match lm.move_robot dir dist with
    | Except.ok r => r.2
    | Except.error _ => lm
  | Op.rotate rot => (lm.update_rotation rot).2

/-- Running a command sequence left to right. -/
def run (lm : LocationManager) : List Op → LocationManager
  | [] => lm
  | op :: ops => run (applyOp lm op) ops

example :
    LocationManager.handle_rotation available_directions (some "LEFT")
      (some "NORTH") = Except.ok "WEST" := by decide

example :
    LocationManager.check_location (5, 5) (5, 6) = false := by decide

example :
    (run (LocationManager.init (5, 5))
        [Op.place (some (0, 0, "NORTH")), Op.move (some "NORTH") 1]).location_y
      = some 1 := by decide

/-- C7: for every bounded area `(w, h)` with non-negative integer dimensions
and every integer point `(x, y)`, `check_location` (the sole validation
primitive) returns `true` iff `0 ≤ x ≤ w` and `0 ≤ y ≤ h`. -/
theorem C7_contains_iff (w h x y : Int) (hw : 0 ≤ w) (hh : 0 ≤ h) :
    LocationManager.check_location (w, h) (x, y) = true ↔
      0 ≤ x ∧ x ≤ w ∧ 0 ≤ y ∧ y ≤ h := by
  unfold LocationManager.check_location
  split
  · rename_i hc
    simp only [Bool.false_eq_true, false_iff]
    simp only [decide_eq_true_eq, Bool.or_eq_true] at hc
    omega
  · rename_i hc
    simp only [true_iff]
    simp only [decide_eq_true_eq, Bool.or_eq_true] at hc
    push_neg at hc
    omega

theorem C7_contains_iff_witness :
    (0 : Int) ≤ 5 ∧ (0 : Int) ≤ 4 ∧
      (LocationManager.check_location (5, 4) (3, 2) = true ↔
        0 ≤ (3 : Int) ∧ (3 : Int) ≤ 5 ∧ 0 ≤ (2 : Int) ∧ (2 : Int) ≤ 4) :=
  ⟨by decide, by decide, C7_contains_iff 5 4 3 2 (by decide) (by decide)⟩

/-- C2: for every integer pair `(x, y)` — in or out of the area — and every
orientation string `o`, `set_start_position (some (x, y, o))` (the PLACE
operation) succeeds: it returns `True`, overwrites position and orientation
regardless of the earlier state (so re-placement always overwrites), sets
the agent placed, and never touches the area. -/
theorem C2_place_unconditional (lm : LocationManager) (x y : Int) (o : String) :
    lm.set_start_position (some (x, y, o)) =
      (true, { lm with
                 location_x := some x
                 location_y := some y
                 location_facing := some o }) ∧
    (lm.set_start_position (some (x, y, o))).2.is_placed = true ∧
    (lm.set_start_position (some (x, y, o))).2.simulation_area =
      lm.simulation_area :=
  ⟨rfl, rfl, rfl⟩

/-- C9: `set_start_position none` (PLACE with an absent location) returns
`False` and leaves every field unchanged; in particular the never-placed
initial state stays unplaced and no default placement at `(0, 0, NORTH)`
happens, contrary to the method's docstring. -/
theorem C9_place_none_noop (lm : LocationManager) (area : Int × Int) :
    lm.set_start_position none = (false, lm) ∧
    (LocationManager.init area).set_start_position none =
      (false, LocationManager.init area) ∧
    ((LocationManager.init area).set_start_position none).2.is_placed = false :=
  ⟨rfl, rfl, rfl⟩

/-- C10: for every direction value outside the four canonical direction
strings — including the absent value `none` — `handle_move` returns the
current location unchanged, and `move_robot` returns `False` with the whole
state unchanged and without raising. -/
theorem C10_move_total_in_direction (lm : LocationManager) (dir : Option String)
    (dist : Int) (h : ∀ d ∈ available_directions, dir ≠ some d) :
    LocationManager.handle_move (lm.location_x, lm.location_y) dir dist =
      Except.ok (lm.location_x, lm.location_y) ∧
    lm.move_robot dir dist = Except.ok (false, lm) := by
  have hN : dir ≠ some "NORTH" := h _ (by decide)
  have hE : dir ≠ some "EAST" := h _ (by decide)
  have hS : dir ≠ some "SOUTH" := h _ (by decide)
  have hW : dir ≠ some "WEST" := h _ (by decide)
  have hm : LocationManager.handle_move (lm.location_x, lm.location_y) dir dist =
      Except.ok (lm.location_x, lm.location_y) := by
    unfold LocationManager.handle_move
    rw [if_neg hN, if_neg hE, if_neg hS, if_neg hW]
  refine ⟨hm, ?_⟩
  unfold LocationManager.move_robot
  rw [hm]
  simp

theorem C10_witness :
    (∀ d ∈ available_directions, (none : Option String) ≠ some d) ∧
    (LocationManager.init (5, 5)).move_robot none 1 =
      Except.ok (false, LocationManager.init (5, 5)) :=
  ⟨by decide,
    (C10_move_total_in_direction (LocationManager.init (5, 5)) none 1
      (by decide)).2⟩

/-- C6: for every rotation value that is neither `LEFT` nor `RIGHT`
(including `none`), `handle_rotation` signals an explicit error (the raised
`Invalid rotation direction` exception) rather than defaulting silently, and
`update_rotation` returns `False` with the whole state — in particular the
facing — unchanged. -/
theorem C6_invalid_rotation (lm : LocationManager) (rot : Option String)
    (h1 : rot ≠ some "LEFT") (h2 : rot ≠ some "RIGHT") :
    LocationManager.handle_rotation available_directions rot lm.location_facing
      = Except.error "Invalid rotation direction. Must be LEFT or RIGHT." ∧
    lm.update_rotation rot = (false, lm) := by
  have hr : LocationManager.handle_rotation available_directions rot
      lm.location_facing
      = Except.error "Invalid rotation direction. Must be LEFT or RIGHT." := by
    unfold LocationManager.handle_rotation
    rw [if_neg h2, if_neg h1]
  refine ⟨hr, ?_⟩
  unfold LocationManager.update_rotation
  rw [hr]

theorem C6_witness :
    ((some "UP" : Option String) ≠ some "LEFT") ∧
    ((some "UP" : Option String) ≠ some "RIGHT") ∧
    (LocationManager.mk (5, 5) (some 1) (some 2) (some "NORTH")).update_rotation
        (some "UP")
      = (false, LocationManager.mk (5, 5) (some 1) (some 2) (some "NORTH")) :=
  ⟨by decide, by decide,
    (C6_invalid_rotation (LocationManager.mk (5, 5) (some 1) (some 2)
      (some "NORTH")) (some "UP") (by decide) (by decide)).2⟩

/-- C5: over the cyclic order `['NORTH', 'EAST', 'SOUTH', 'WEST']`,
`handle_rotation` with `RIGHT` advances the index by `+1` modulo 4 and with
`LEFT` by `-1` modulo 4 (written `+3` modulo 4 over `Nat`), wrapping in both
directions (`NORTH + LEFT = WEST`, `WEST + RIGHT = NORTH`); hence for every
orientation `o` in the list, `LEFT` then `RIGHT` (sequenced through
`Except.bind`) returns to `o`, `RIGHT` then `LEFT` returns to `o`, and four
consecutive `RIGHT` rotations return to `o`. -/
theorem C5_rotation_cycle (o : String) (h : o ∈ available_directions) :
    (LocationManager.handle_rotation available_directions (some "LEFT")
        (some "NORTH") = Except.ok "WEST") ∧
    (LocationManager.handle_rotation available_directions (some "RIGHT")
        (some "WEST") = Except.ok "NORTH") ∧
    (∀ i : Fin 4,
      LocationManager.handle_rotation available_directions (some "RIGHT")
          (available_directions.get? i.val)
        = Except.ok (available_directions.getD ((i.val + 1) % 4) "") ∧
      LocationManager.handle_rotation available_directions (some "LEFT")
          (available_directions.get? i.val)
        = Except.ok (available_directions.getD ((i.val + 3) % 4) "")) ∧
    ((LocationManager.handle_rotation available_directions (some "LEFT")
        (some o)).bind
      (fun o1 => LocationManager.handle_rotation available_directions
        (some "RIGHT") (some o1)) = Except.ok o) ∧
    ((LocationManager.handle_rotation available_directions (some "RIGHT")
        (some o)).bind
      (fun o1 => LocationManager.handle_rotation available_directions
        (some "LEFT") (some o1)) = Except.ok o) ∧
    ((LocationManager.handle_rotation available_directions (some "RIGHT")
        (some o)).bind
      (fun o1 => (LocationManager.handle_rotation available_directions
          (some "RIGHT") (some o1)).bind
        (fun o2 => (LocationManager.handle_rotation available_directions
            (some "RIGHT") (some o2)).bind
          (fun o3 => LocationManager.handle_rotation available_directions
            (some "RIGHT") (some o3)))) = Except.ok o) := by
  fin_cases h <;> exact ⟨by decide, by decide, by decide, by decide, by decide,
    by decide⟩

theorem C5_witness :
    "NORTH" ∈ available_directions ∧
    LocationManager.handle_rotation available_directions (some "LEFT")
      (some "NORTH") = Except.ok "WEST" :=
  ⟨by decide, (C5_rotation_cycle "NORTH" (by decide)).1⟩

/-- C3: for a placed agent, whenever the candidate location computed by
`handle_move` is rejected by `check_location`, `move_robot` returns `False`
(an `Except.ok` result, so no exception) and the state is exactly the input
state: atomic rejection. -/
theorem C3_move_rejected (lm : LocationManager) (dir : Option String)
    (dist : Int) (x y nx ny : Int)
    (hx : lm.location_x = some x) (hy : lm.location_y = some y)
    (hm : LocationManager.handle_move (some x, some y) dir dist =
      Except.ok (some nx, some ny))
    (hout : LocationManager.check_location lm.simulation_area (nx, ny) = false) :
    lm.move_robot dir dist = Except.ok (false, lm) := by
  unfold LocationManager.move_robot
  rw [hx, hy, hm]
  dsimp only
  split
  · rfl
  · rw [if_neg (by simp [hout])]

theorem C3_witness :
    LocationManager.handle_move (some 5, some 5) (some "NORTH") 1 =
      Except.ok (some 5, some 6) ∧
    LocationManager.check_location (5, 5) (5, 6) = false ∧
    (LocationManager.mk (5, 5) (some 5) (some 5) (some "NORTH")).move_robot
        (some "NORTH") 1
      = Except.ok (false, LocationManager.mk (5, 5) (some 5) (some 5)
          (some "NORTH")) :=
  ⟨by decide, by decide,
    C3_move_rejected (LocationManager.mk (5, 5) (some 5) (some 5)
      (some "NORTH")) (some "NORTH") 1 5 5 5 6 rfl rfl (by decide) (by decide)⟩

/-- C4: for a placed agent at `(x, y)`, `handle_move` with distance 1 shifts
exactly one coordinate by one unit along the orientation's axis
(NORTH: `y + 1`; SOUTH: `y - 1`; EAST: `x + 1`; WEST: `x - 1`), and whenever
`check_location` accepts the candidate, `move_robot` updates the position to
the candidate and returns `True`. -/
theorem C4_move_step (lm : LocationManager) (x y : Int)
    (hx : lm.location_x = some x) (hy : lm.location_y = some y) :
    (LocationManager.handle_move (some x, some y) (some "NORTH") 1 =
      Except.ok (some x, some (y + 1))) ∧
    (LocationManager.handle_move (some x, some y) (some "SOUTH") 1 =
      Except.ok (some x, some (y - 1))) ∧
    (LocationManager.handle_move (some x, some y) (some "EAST") 1 =
      Except.ok (some (x + 1), some y)) ∧
    (LocationManager.handle_move (some x, some y) (some "WEST") 1 =
      Except.ok (some (x - 1), some y)) ∧
    (LocationManager.check_location lm.simulation_area (x, y + 1) = true →
      lm.move_robot (some "NORTH") 1 = Except.ok (true,
        { lm with location_x := some x, location_y := some (y + 1) })) ∧
    (LocationManager.check_location lm.simulation_area (x, y - 1) = true →
      lm.move_robot (some "SOUTH") 1 = Except.ok (true,
        { lm with location_x := some x, location_y := some (y - 1) })) ∧
    (LocationManager.check_location lm.simulation_area (x + 1, y) = true →
      lm.move_robot (some "EAST") 1 = Except.ok (true,
        { lm with location_x := some (x + 1), location_y := some y })) ∧
    (LocationManager.check_location lm.simulation_area (x - 1, y) = true →
      lm.move_robot (some "WEST") 1 = Except.ok (true,
        { lm with location_x := some (x - 1), location_y := some y })) := by
  have hN : LocationManager.handle_move (some x, some y) (some "NORTH") 1 =
      Except.ok (some x, some (y + 1)) := by
    unfold LocationManager.handle_move
    rw [if_pos rfl]
  have hE : LocationManager.handle_move (some x, some y) (some "EAST") 1 =
      Except.ok (some (x + 1), some y) := by
    unfold LocationManager.handle_move
    rw [if_neg (by decide), if_pos rfl]
  have hS : LocationManager.handle_move (some x, some y) (some "SOUTH") 1 =
      Except.ok (some x, some (y - 1)) := by
    unfold LocationManager.handle_move
    rw [if_neg (by decide), if_neg (by decide), if_pos rfl]
  have hW : LocationManager.handle_move (some x, some y) (some "WEST") 1 =
      Except.ok (some (x - 1), some y) := by
    unfold LocationManager.handle_move
    rw [if_neg (by decide), if_neg (by decide), if_neg (by decide), if_pos rfl]
  refine ⟨hN, hS, hE, hW, ?_, ?_, ?_, ?_⟩
  · intro hin
    unfold LocationManager.move_robot
    rw [hx, hy, hN]
    dsimp only
    rw [if_neg (by simp only [Prod.mk.injEq, Option.some.injEq]; omega)]
    rw [if_pos hin]
  · intro hin
    unfold LocationManager.move_robot
    rw [hx, hy, hS]
    dsimp only
    rw [if_neg (by simp only [Prod.mk.injEq, Option.some.injEq]; omega)]
    rw [if_pos hin]
  · intro hin
    unfold LocationManager.move_robot
    rw [hx, hy, hE]
    dsimp only
    rw [if_neg (by simp only [Prod.mk.injEq, Option.some.injEq]; omega)]
    rw [if_pos hin]
  · intro hin
    unfold LocationManager.move_robot
    rw [hx, hy, hW]
    dsimp only
    rw [if_neg (by simp only [Prod.mk.injEq, Option.some.injEq]; omega)]
    rw [if_pos hin]

theorem C4_witness :
    LocationManager.handle_move (some 1, some 2) (some "NORTH") 1 =
      Except.ok (some 1, some (2 + 1)) ∧
    (LocationManager.mk (5, 5) (some 1) (some 2) (some "NORTH")).move_robot
        (some "NORTH") 1
      = Except.ok (true, LocationManager.mk (5, 5) (some 1) (some (2 + 1))
          (some "NORTH")) :=
  ⟨(C4_move_step (LocationManager.mk (5, 5) (some 1) (some 2) (some "NORTH"))
      1 2 rfl rfl).1,
    (C4_move_step (LocationManager.mk (5, 5) (some 1) (some 2) (some "NORTH"))
      1 2 rfl rfl).2.2.2.2.1 (by decide)⟩

/-- Any successful `move_robot` call either keeps the state or moves to a
candidate accepted by `check_location`. -/
lemma move_robot_cases (lm : LocationManager) (dir : Option String)
    (dist : Int) (b : Bool) (lm2 : LocationManager)
    (h : lm.move_robot dir dist = Except.ok (b, lm2)) :
    lm2 = lm ∨
      ∃ nx ny, LocationManager.check_location lm.simulation_area (nx, ny) = true ∧
        lm2 = { lm with location_x := some nx, location_y := some ny } := by
  unfold LocationManager.move_robot at h
  split at h
  · cases h
  · rename_i scr new_x new_y heq
    split at h
    · left
      injection h with h2
      exact (congrArg Prod.snd h2).symm
    · cases new_x with
      | none =>
        cases new_y with
        | none => cases h
        | some ny => cases h
      | some nx =>
        cases new_y with
        | none => cases h
        | some ny =>
          dsimp only at h
          split at h
          · right
            refine ⟨nx, ny, by assumption, ?_⟩
            injection h with h2
            exact (congrArg Prod.snd h2).symm
          · left
            injection h with h2
            exact (congrArg Prod.snd h2).symm

/-- C1 fails as stated: PLACE does not validate against the area, so the
operation `place` does not preserve the bound.  From the initial state with
area `(5, 5)`, the single reachable-state-producing command
`PLACE 6,6,NORTH` yields a placed state whose position `(6, 6)` violates
`0 ≤ x ≤ width` — `check_location` itself rejects it. -/
theorem C1_counterexample :
    (run (LocationManager.init (5, 5))
        [Op.place (some (6, 6, "NORTH"))]).is_placed = true ∧
    (run (LocationManager.init (5, 5))
        [Op.place (some (6, 6, "NORTH"))]).location_x = some 6 ∧
    (run (LocationManager.init (5, 5))
        [Op.place (some (6, 6, "NORTH"))]).location_y = some 6 ∧
    (run (LocationManager.init (5, 5))
        [Op.place (some (6, 6, "NORTH"))]).simulation_area = (5, 5) ∧
    LocationManager.check_location (5, 5) (6, 6) = false := by
  decide

/-- C1 amended: once the agent is placed at a position that satisfies
`0 ≤ x ≤ area.width` and `0 ≤ y ≤ area.height`, the operations move and
rotate preserve this bound (move only ever accepts candidates passing
`check_location`, rotate never touches position or area); place, however,
does not validate and can break the bound. -/
theorem C1_amended_bounds_preserved (lm : LocationManager)
    (dir rot : Option String) (dist : Int) (x y : Int)
    (hx : lm.location_x = some x) (hy : lm.location_y = some y)
    (hb : LocationManager.check_location lm.simulation_area (x, y) = true) :
    (∀ b lm2, lm.move_robot dir dist = Except.ok (b, lm2) →
      lm2.simulation_area = lm.simulation_area ∧
      ∃ x2 y2, lm2.location_x = some x2 ∧ lm2.location_y = some y2 ∧
        LocationManager.check_location lm2.simulation_area (x2, y2) = true) ∧
    ((lm.update_rotation rot).2.simulation_area = lm.simulation_area ∧
      (lm.update_rotation rot).2.location_x = some x ∧
      (lm.update_rotation rot).2.location_y = some y ∧
      LocationManager.check_location (lm.update_rotation rot).2.simulation_area
        (x, y) = true) := by
  constructor
  · intro b lm2 h
    rcases move_robot_cases lm dir dist b lm2 h with rfl | ⟨nx, ny, hc, rfl⟩
    · exact ⟨rfl, x, y, hx, hy, hb⟩
    · exact ⟨rfl, nx, ny, rfl, rfl, hc⟩
  · unfold LocationManager.update_rotation
    split
    · exact ⟨rfl, hx, hy, hb⟩
    · exact ⟨rfl, hx, hy, hb⟩

theorem C1_amended_witness :
    LocationManager.check_location (5, 5) (0, 0) = true ∧
    ((LocationManager.mk (5, 5) (some 0) (some 0)
        (some "NORTH")).update_rotation (some "LEFT")).2.location_x = some 0 :=
  ⟨by decide,
    ((C1_amended_bounds_preserved
        (LocationManager.mk (5, 5) (some 0) (some 0) (some "NORTH"))
        (some "SOUTH") (some "LEFT") 1 0 0 rfl rfl (by decide)).2).2.1⟩

/-- On an unplaced pair of coordinates, `handle_move` either raises
`TypeError` (a recognized direction adds an int to `None`) or returns the
pair unchanged (any other direction). -/
lemma handle_move_none (dir : Option String) (dist : Int) :
    LocationManager.handle_move (none, none) dir dist =
        Except.error "TypeError" ∨
    LocationManager.handle_move (none, none) dir dist =
        Except.ok (none, none) := by
  unfold LocationManager.handle_move
  split
  · left; rfl
  · split
    · left; rfl
    · split
      · left; rfl
      · split
        · left; rfl
        · right; rfl

/-- On an unplaced state, `move_robot` either propagates `TypeError` or
returns `False` with the state unchanged. -/
lemma move_robot_none (lm : LocationManager) (dir : Option String)
    (dist : Int) (hx : lm.location_x = none) (hy : lm.location_y = none) :
    lm.move_robot dir dist = Except.error "TypeError" ∨
    lm.move_robot dir dist = Except.ok (false, lm) := by
  unfold LocationManager.move_robot
  rw [hx, hy]
  rcases handle_move_none dir dist with he | hok
  · rw [he]
    left
    rfl
  · rw [hok]
    right
    dsimp only
    rw [if_pos rfl]

/-- No operation ever un-places a placed agent: `applyOp` keeps
`is_placed` true. -/
lemma is_placed_applyOp_mono (lm : LocationManager) (op : Op)
    (h : lm.is_placed = true) : (applyOp lm op).is_placed = true := by
  cases op with
  | place loc =>
    cases loc with
    | none => exact h
    | some l => rfl
  | move dir dist =>
    simp only [applyOp]
    cases hmv : lm.move_robot dir dist with
    | error e => exact h
    | ok r =>
      show r.2.is_placed = true
      rcases move_robot_cases lm dir dist r.1 r.2 hmv with heq | ⟨nx, ny, _, heq⟩
      · rw [heq]; exact h
      · rw [heq]; rfl
  | rotate rot =>
    simp only [applyOp]
    unfold LocationManager.update_rotation
    split
    · exact h
    · exact h

/-- Once placed, the agent stays placed under every command sequence. -/
lemma is_placed_run_mono (lm : LocationManager) (ops : List Op)
    (h : lm.is_placed = true) : (run lm ops).is_placed = true := by
  induction ops generalizing lm with
  | nil => exact h
  | cons op ops ih => exact ih _ (is_placed_applyOp_mono lm op h)

/-- A command that is not a successful PLACE keeps both coordinates
absent. -/
lemma coords_none_applyOp (lm : LocationManager) (op : Op)
    (hx : lm.location_x = none) (hy : lm.location_y = none)
    (hop : ∀ x y f, op ≠ Op.place (some (x, y, f))) :
    (applyOp lm op).location_x = none ∧ (applyOp lm op).location_y = none := by
  cases op with
  | place loc =>
    cases loc with
    | none => exact ⟨hx, hy⟩
    | some l =>
      obtain ⟨a, b, f⟩ := l
      exact absurd rfl (hop a b f)
  | move dir dist =>
    simp only [applyOp]
    rcases move_robot_none lm dir dist hx hy with he | hok
    · rw [he]
      exact ⟨hx, hy⟩
    · rw [hok]
      exact ⟨hx, hy⟩
  | rotate rot =>
    simp only [applyOp]
    unfold LocationManager.update_rotation
    split
    · exact ⟨hx, hy⟩
    · exact ⟨hx, hy⟩

/-- Without a successful PLACE, a whole command sequence keeps both
coordinates absent. -/
lemma coords_none_run (lm : LocationManager) (ops : List Op)
    (hx : lm.location_x = none) (hy : lm.location_y = none)
    (hops : ∀ op ∈ ops, ∀ x y f, op ≠ Op.place (some (x, y, f))) :
    (run lm ops).location_x = none ∧ (run lm ops).location_y = none := by
  induction ops generalizing lm with
  | nil => exact ⟨hx, hy⟩
  | cons op ops ih =>
    have h1 := coords_none_applyOp lm op hx hy (hops op (by simp))
    exact ih _ h1.1 h1.2 (fun o ho => hops o (by simp [ho]))

/-- Running a concatenated command sequence runs the pieces in order. -/
lemma run_append (lm : LocationManager) (l1 l2 : List Op) :
    run lm (l1 ++ l2) = run (run lm l1) l2 := by
  induction l1 generalizing lm with
  | nil => rfl
  | cons op l1 ih => simp [run, ih]

/-- C8: starting from the initial (unplaced) state, `is_placed` is true
after a command sequence iff the sequence contains at least one successful
PLACE (a `place` with a present location); and `is_placed` never goes from
true back to false — every single operation preserves placedness. -/
theorem C8_placed_monotone (area : Int × Int) (ops : List Op) :
    ((run (LocationManager.init area) ops).is_placed = true ↔
      ∃ op ∈ ops, ∃ x y f, op = Op.place (some (x, y, f))) ∧
    (∀ lm : LocationManager, ∀ op : Op,
      lm.is_placed = true → (applyOp lm op).is_placed = true) := by
  refine ⟨⟨?_, ?_⟩, fun lm op h => is_placed_applyOp_mono lm op h⟩
  · intro hplaced
    by_contra hno
    push_neg at hno
    have hcn := coords_none_run (LocationManager.init area) ops rfl rfl hno
    unfold LocationManager.is_placed at hplaced
    rw [hcn.1, hcn.2] at hplaced
    cases hplaced
  · rintro ⟨op, hmem, x, y, f, rfl⟩
    obtain ⟨l1, l2, rfl⟩ := List.append_of_mem hmem
    rw [run_append]
    refine is_placed_run_mono _ l2 ?_
    rfl

theorem C8_witness :
    (run (LocationManager.init (5, 5))
        [Op.place (some (0, 0, "NORTH"))]).is_placed = true :=
  (C8_placed_monotone (5, 5) [Op.place (some (0, 0, "NORTH"))]).1.mpr
    ⟨Op.place (some (0, 0, "NORTH")), by simp, 0, 0, "NORTH", rfl⟩
